import Mathlib

/-!
Verification of the Armour Mayhem clone's simulation core against its
specification.  The TypeScript source is embedded shallowly over exact
rationals (`ℚ`): JavaScript numbers are IEEE doubles, but every comparison
and update the claims depend on is exact rational (or integer) arithmetic,
so the rational model is faithful on the states the claims quantify over.
`Math.sqrt` is the one transcendental operation involved; it is modelled by
an abstract function parameter `sqrtFn : ℚ → ℚ`, and theorems assume only
the properties of IEEE sqrt they need (e.g. `sqrtFn 0 = 0`).
Angles produced by `Math.atan2`/`Math.cos`/`Math.sin` in the weapon system
are represented by the angle value itself (see `ProjectileSpawnData`),
with `Math.PI` as an abstract rational parameter `piQ`.
-/

namespace ArmourMayhem

/-! ## Rect (src/types/Rect.ts) -/

/-- `Rect` from src/types/Rect.ts: `(x, y, width, height)`. -/
structure Rect where
  x : ℚ
  y : ℚ
  width : ℚ
  height : ℚ
  deriving DecidableEq, Repr

/-- `get left()`: the left edge x-coordinate. -/
def Rect.left (r : Rect) : ℚ := r.x

/-- `get right()`: `this.x + this.width`. -/
def Rect.right (r : Rect) : ℚ := r.x + r.width

/-- `get top()`: the top edge y-coordinate. -/
def Rect.top (r : Rect) : ℚ := r.y

/-- `get bottom()`: `this.y + this.height`. -/
def Rect.bottom (r : Rect) : ℚ := r.y + r.height

/-- `Rect.overlaps` from src/types/Rect.ts:
`this.left < other.right && this.right > other.left &&
 this.top < other.bottom && this.bottom > other.top`. -/
def Rect.overlaps (a b : Rect) : Bool :=
  decide (a.left < b.right) && decide (a.right > b.left) &&
  decide (a.top < b.bottom) && decide (a.bottom > b.top)

/-- Modelled from the spec: the `intersects` method invoked at
`PhysicsSystem.update` (part_008 line 91) and
`CollisionSystem.detectCollisions` (DebugRenderer.ts line 172) is absent
from the `Rect` class under src/ (only its call sites are present).  The
spec states that the `overlaps`/`intersects` test is the same strict-open
AABB overlap test, so `intersects` is modelled as `Rect.overlaps`. -/
def Rect.intersects (a b : Rect) : Bool := Rect.overlaps a b

/-! ## Vec2 (src/types/Vec2.ts)

Coordinates are exact rationals; `Math.sqrt` is the abstract `sqrtFn`
parameter. -/

/-- `Vec2` from src/types/Vec2.ts. -/
structure Vec2 where
  x : ℚ
  y : ℚ
  deriving DecidableEq, Repr

/-- `Vec2.length`: `Math.sqrt(x*x + y*y)`, with `Math.sqrt` abstracted
as `sqrtFn`. -/
def Vec2.len (sqrtFn : ℚ → ℚ) (v : Vec2) : ℚ :=
  sqrtFn (v.x * v.x + v.y * v.y)

/-- `Vec2.multiply(scalar)`. -/
def Vec2.multiply (v : Vec2) (scalar : ℚ) : Vec2 :=
  ⟨v.x * scalar, v.y * scalar⟩

/-- `Vec2.normalize`: `const len = this.length(); if (len === 0) return
new Vec2(0, 0); return new Vec2(this.x / len, this.y / len)`. -/
def Vec2.normalize (sqrtFn : ℚ → ℚ) (v : Vec2) : Vec2 :=
  let l := v.len sqrtFn
  if l = 0 then ⟨0, 0⟩ else ⟨v.x / l, v.y / l⟩

/-! ## Weapon definitions (src/data/weapons.ts, part_004)

`magazineSize` is integer-valued in every weapon definition and is only
ever copied into `currentAmmo`, decremented by one, or compared with `0`,
so ammunition is modelled over `ℤ`; time-valued fields stay in `ℚ`. -/

/-- `WeaponDef` from src/types/index.ts. -/
structure WeaponDef where
  name : String
  damage : ℚ
  fireRate : ℚ
  magazineSize : ℤ
  reloadTime : ℚ
  projectileSpeed : ℚ
  spread : ℚ
  projectileCount : ℕ
  deriving DecidableEq, Repr

/-- `WEAPON_PISTOL` from src/data/weapons.ts. -/
def WEAPON_PISTOL : WeaponDef :=
  { name := "Pistol", damage := 25, fireRate := 3, magazineSize := 12,
    reloadTime := 3/2, projectileSpeed := 800, spread := 2,
    projectileCount := 1 }

/-- `WEAPON_SHOTGUN` from src/data/weapons.ts. -/
def WEAPON_SHOTGUN : WeaponDef :=
  { name := "Shotgun", damage := 15, fireRate := 1, magazineSize := 6,
    reloadTime := 5/2, projectileSpeed := 600, spread := 15,
    projectileCount := 6 }

/-- `WEAPON_RIFLE` from src/data/weapons.ts. -/
def WEAPON_RIFLE : WeaponDef :=
  { name := "Rifle", damage := 20, fireRate := 8, magazineSize := 30,
    reloadTime := 2, projectileSpeed := 1000, spread := 3,
    projectileCount := 1 }

/-! ## Weapon system (src/systems/WeaponSystem.ts, part_010)

`fire` turns the aim direction into an angle via `Math.atan2` and back
into a unit vector via `Math.cos`/`Math.sin`; since the claims speak of
direction angles, the embedding carries the angle itself: the aim
direction is given as `aimAngle : ℚ` (the value of
`Math.atan2(direction.y, direction.x)`) and each spawned projectile
records its direction angle.  `Math.PI` is the abstract parameter `piQ`
and the `Math.random()` stream is the abstract parameter `rng : ℕ → ℚ`
(call `i` of the tick returns `rng i`). -/

/-- `WeaponState` from src/systems/WeaponSystem.ts. -/
structure WeaponState where
  weapon : WeaponDef
  currentAmmo : ℤ
  isReloading : Bool
  reloadTimer : ℚ
  fireCooldown : ℚ
  deriving DecidableEq, Repr

/-- `ProjectileSpawnData` from src/systems/WeaponSystem.ts, with the
direction unit vector `new Vec2(Math.cos(angle), Math.sin(angle))`
represented by its angle. -/
structure ProjectileSpawnData where
  position : ℚ × ℚ
  angle : ℚ
  damage : ℚ
  speed : ℚ
  deriving DecidableEq, Repr

/-- Body of `WeaponSystem.registerWeapon` (and of `switchWeapon`): the
fresh `WeaponState` stored for the owner. -/
def WeaponState.init (weapon : WeaponDef) : WeaponState :=
  { weapon := weapon, currentAmmo := weapon.magazineSize,
    isReloading := false, reloadTimer := 0, fireCooldown := 0 }

/-- Per-state body of `WeaponSystem.update(dt)`: decrement the fire
cooldown (clamped at 0), then advance the reload timer, completing the
reload when it reaches `<= 0`. -/
def WeaponState.tick (dt : ℚ) (s : WeaponState) : WeaponState :=
  let s1 :=
    if s.fireCooldown > 0 then
      let c := s.fireCooldown - dt
      { s with fireCooldown := if c < 0 then 0 else c }
    else s
  if s1.isReloading then
    let t := s1.reloadTimer - dt
    if t ≤ 0 then
      { s1 with isReloading := false,
                currentAmmo := s1.weapon.magazineSize, reloadTimer := 0 }
    else { s1 with reloadTimer := t }
  else s1

/-- Per-state body of `WeaponSystem.startReload`: fails (and leaves the
state alone) if already reloading or the magazine is full; otherwise sets
`isReloading` and `reloadTimer = reloadTime`. -/
def WeaponState.startReload (s : WeaponState) : Bool × WeaponState :=
  if s.isReloading = true ∨ s.currentAmmo = s.weapon.magazineSize then
    (false, s)
  else
    (true, { s with isReloading := true, reloadTimer := s.weapon.reloadTime })

/-- The spread angle of pellet `i` in `WeaponSystem.fire`:
deterministically fanned out for `projectileCount > 1`, randomly drawn
via `Math.random()` (modelled by `rng`) for a single projectile.
`spreadRange = weapon.spread * (Math.PI / 180)`. -/
def spreadAngle (w : WeaponDef) (piQ : ℚ) (rng : ℕ → ℚ) (i : ℕ) : ℚ :=
  let spreadRange := w.spread * (piQ / 180)
  if w.projectileCount > 1 then
    ((i : ℚ) / ((w.projectileCount : ℚ) - 1) - 1/2) * spreadRange
  else
    (rng i - 1/2) * spreadRange

/-- Per-state body of `WeaponSystem.fire`: no-op while reloading, on
cooldown, or out of ammo; otherwise consume one round, set
`fireCooldown = 1 / fireRate`, auto-start the reload when the magazine
just emptied, and fan out `projectileCount` spawn records around
`aimAngle = Math.atan2(direction.y, direction.x)`. -/
def WeaponState.fire (piQ : ℚ) (rng : ℕ → ℚ) (position : ℚ × ℚ)
    (aimAngle : ℚ) (s : WeaponState) :
    List ProjectileSpawnData × WeaponState :=
  if s.isReloading = true ∨ s.fireCooldown > 0 ∨ s.currentAmmo ≤ 0 then
    ([], s)
  else
    let s1 := { s with currentAmmo := s.currentAmmo - 1,
                       fireCooldown := 1 / s.weapon.fireRate }
    let s2 := if s1.currentAmmo = 0 then (s1.startReload).2 else s1
    let projectiles := (List.range s.weapon.projectileCount).map fun i =>
      { position := position,
        angle := aimAngle + spreadAngle s.weapon piQ rng i,
        damage := s.weapon.damage,
        speed := s.weapon.projectileSpeed : ProjectileSpawnData }
    (projectiles, s2)

/-! The `WeaponSystem` class keeps `weaponStates : Map<number,
WeaponState>`, modelled as `ℕ → Option WeaponState`. -/

/-- The `weaponStates` map of a `WeaponSystem`. -/
def WeaponSys : Type := ℕ → Option WeaponState

/-- `WeaponSystem.registerWeapon(entityId, weapon)`. -/
def WeaponSys.registerWeapon (ws : WeaponSys) (entityId : ℕ)
    (weapon : WeaponDef) : WeaponSys :=
  fun j => if j = entityId then some (WeaponState.init weapon) else ws j

/-- `WeaponSystem.update(dt)`: ticks every registered state. -/
def WeaponSys.update (dt : ℚ) (ws : WeaponSys) : WeaponSys :=
  fun j => (ws j).map (WeaponState.tick dt)

/-- `WeaponSystem.fire(entityId, position, direction)`: `[]` when the
owner has no registered state. -/
def WeaponSys.fire (piQ : ℚ) (rng : ℕ → ℚ) (ws : WeaponSys)
    (entityId : ℕ) (position : ℚ × ℚ) (aimAngle : ℚ) :
    List ProjectileSpawnData × WeaponSys :=
  match ws entityId with
  | none => ([], ws)
  | some s =>
    let r := s.fire piQ rng position aimAngle
    (r.1, fun j => if j = entityId then some r.2 else ws j)

/-- `WeaponSystem.startReload(entityId)`: `false` when the owner has no
registered state. -/
def WeaponSys.startReload (ws : WeaponSys) (entityId : ℕ) :
    Bool × WeaponSys :=
  match ws entityId with
  | none => (false, ws)
  | some s =>
    let r := s.startReload
    (r.1, fun j => if j = entityId then some r.2 else ws j)

/-- `WeaponSystem.switchWeapon(entityId, newWeapon)`: replaces the state
wholesale (cancelling any reload). -/
def WeaponSys.switchWeapon (ws : WeaponSys) (entityId : ℕ)
    (newWeapon : WeaponDef) : WeaponSys :=
  fun j => if j = entityId then some (WeaponState.init newWeapon) else ws j

/-- The ammunition invariant of a single weapon state. -/
def WeaponState.ammoInv (s : WeaponState) : Prop :=
  0 ≤ s.currentAmmo ∧ s.currentAmmo ≤ s.weapon.magazineSize

/-- The ammunition invariant over every registered state of the map. -/
def WeaponSys.ammoInv (ws : WeaponSys) : Prop :=
  ∀ j s, ws j = some s → s.ammoInv

/-- The 12-shot Pistol scenario of C1: start from a freshly registered
Pistol; every shot after the first is preceded by `update(1/3)` — the
weapon's own cooldown spacing (`1 / fireRate = 1/3 s`), during which no
reload time can elapse.  `shots n` is the weapon state after `n` shots. -/
def pistolShots : ℕ → WeaponState
  | 0 => WeaponState.init WEAPON_PISTOL
  | 1 => (WeaponState.fire 0 (fun _ => 0) (0, 0) 0 (pistolShots 0)).2
  | n + 1 =>
      (WeaponState.fire 0 (fun _ => 0) (0, 0) 0
        (WeaponState.tick (1/3) (pistolShots n))).2

end ArmourMayhem

namespace ArmourMayhem

/-- C7: the AABB overlap test `Rect.overlaps` (the strict-open test the
spec assigns to the `intersects` call sites, here `Rect.intersects`)
returns `true` iff `a.left < b.right`, `a.right > b.left`,
`a.top < b.bottom` and `a.bottom > b.top`; consequently two rectangles
that merely touch on an edge (`a.right = b.left`) never count as
overlapping, and `intersects` is the very same test. -/
theorem overlaps_iff_strict (a b : Rect) :
    (Rect.overlaps a b = true ↔
      a.left < b.right ∧ a.right > b.left ∧ a.top < b.bottom ∧ a.bottom > b.top) ∧
    (a.right = b.left → Rect.overlaps a b = false) ∧
    Rect.intersects a b = Rect.overlaps a b := by
  refine ⟨?_, ?_, rfl⟩
  · simp [Rect.overlaps, and_assoc]
  · intro h
    simp [Rect.overlaps, h]

/-- C7 witness: concrete rectangles exercising the characterization and
the touching-edge case of `overlaps_iff_strict`. -/
theorem overlaps_iff_strict_witness :
    (Rect.overlaps ⟨0, 0, 2, 2⟩ ⟨1, 1, 2, 2⟩ = true) ∧
    (Rect.overlaps ⟨0, 0, 2, 2⟩ ⟨2, 0, 2, 2⟩ = false) := by
  constructor
  · exact (overlaps_iff_strict ⟨0, 0, 2, 2⟩ ⟨1, 1, 2, 2⟩).1.2
      (by refine ⟨?_, ?_, ?_, ?_⟩ <;> norm_num [Rect.left, Rect.right, Rect.top, Rect.bottom])
  · exact (overlaps_iff_strict ⟨0, 0, 2, 2⟩ ⟨2, 0, 2, 2⟩).2.1
      (by norm_num [Rect.left, Rect.right])

/-! ## Weapon state machine: helper lemmas -/

/-- A fresh state has a full, in-range magazine. -/
theorem WeaponState.init_ammoInv (w : WeaponDef) (hw : 0 ≤ w.magazineSize) :
    (WeaponState.init w).ammoInv :=
  ⟨hw, le_refl _⟩

/-- `update`'s per-state tick keeps ammunition in range. -/
theorem WeaponState.tick_ammoInv (dt : ℚ) (s : WeaponState)
    (h : s.ammoInv) : (s.tick dt).ammoInv := by
  obtain ⟨h0, h1⟩ := h
  have hmag : (0 : ℤ) ≤ s.weapon.magazineSize := le_trans h0 h1
  unfold WeaponState.tick WeaponState.ammoInv
  dsimp only
  split_ifs <;> constructor <;> (try simp) <;> omega

/-- `startReload` never changes the ammunition count. -/
theorem WeaponState.startReload_ammo (s : WeaponState) :
    (s.startReload).2.currentAmmo = s.currentAmmo := by
  unfold WeaponState.startReload
  split <;> rfl

/-- `startReload` preserves the ammunition invariant. -/
theorem WeaponState.startReload_ammoInv (s : WeaponState)
    (h : s.ammoInv) : (s.startReload).2.ammoInv := by
  obtain ⟨h0, h1⟩ := h
  unfold WeaponState.startReload WeaponState.ammoInv
  split <;> exact ⟨by simpa using h0, by simpa using h1⟩

/-- `fire`'s per-state body preserves the ammunition invariant. -/
theorem WeaponState.fire_ammoInv (piQ : ℚ) (rng : ℕ → ℚ) (pos : ℚ × ℚ)
    (aim : ℚ) (s : WeaponState) (h : s.ammoInv) :
    (s.fire piQ rng pos aim).2.ammoInv := by
  obtain ⟨h0, h1⟩ := h
  unfold WeaponState.fire
  split
  · exact ⟨h0, h1⟩
  · rename_i hgate
    push_neg at hgate
    obtain ⟨-, -, hpos⟩ := hgate
    have hinv1 : (0 : ℤ) ≤ s.currentAmmo - 1 := by omega
    have hinv2 : s.currentAmmo - 1 ≤ s.weapon.magazineSize := by omega
    simp only
    split
    · exact WeaponState.startReload_ammoInv _ ⟨hinv1, hinv2⟩
    · exact ⟨hinv1, hinv2⟩

/-- A weapon-states map entry after a pointwise overwrite. -/
theorem WeaponSys.ammoInv_overwrite (ws : WeaponSys) (entityId : ℕ)
    (s' : WeaponState) (h : ws.ammoInv) (hs : s'.ammoInv) :
    WeaponSys.ammoInv (fun j => if j = entityId then some s' else ws j) := by
  intro j s hj
  by_cases hje : j = entityId
  · simp only [hje, if_true, reduceIte, Option.some.injEq] at hj
    exact hj ▸ hs
  · exact h j s (by simpa [hje] using hj)

end ArmourMayhem

namespace ArmourMayhem

/-- C9: every `WeaponSystem` operation (`registerWeapon`, `update`,
`fire`, `startReload`, `switchWeapon`) preserves
`0 <= currentAmmo <= magazineSize` for every registered state (for
`registerWeapon`/`switchWeapon` the incoming definition's magazine size
must be non-negative, as every weapon definition's is); and `startReload`
returns `false` and leaves the state unchanged when the state is already
reloading or the magazine is full. -/
theorem weaponSys_ops_ammoInv (ws : WeaponSys) :
    (∀ entityId w, ws.ammoInv → 0 ≤ w.magazineSize →
      (ws.registerWeapon entityId w).ammoInv) ∧
    (∀ dt, ws.ammoInv → (WeaponSys.update dt ws).ammoInv) ∧
    (∀ piQ rng entityId pos aim, ws.ammoInv →
      (WeaponSys.fire piQ rng ws entityId pos aim).2.ammoInv) ∧
    (∀ entityId, ws.ammoInv → (ws.startReload entityId).2.ammoInv) ∧
    (∀ entityId w, ws.ammoInv → 0 ≤ w.magazineSize →
      (ws.switchWeapon entityId w).ammoInv) ∧
    (∀ s : WeaponState,
      s.isReloading = true ∨ s.currentAmmo = s.weapon.magazineSize →
      s.startReload = (false, s)) := by
  refine ⟨?_, ?_, ?_, ?_, ?_, ?_⟩
  · intro entityId w h hw
    exact WeaponSys.ammoInv_overwrite ws entityId _ h (WeaponState.init_ammoInv w hw)
  · intro dt h j s hj
    unfold WeaponSys.update at hj
    obtain ⟨s0, hs0, rfl⟩ := Option.map_eq_some'.mp hj
    exact WeaponState.tick_ammoInv dt s0 (h j s0 hs0)
  · intro piQ rng entityId pos aim h
    unfold WeaponSys.fire
    cases hws : ws entityId with
    | none => exact h
    | some s =>
      exact WeaponSys.ammoInv_overwrite ws entityId _ h
        (WeaponState.fire_ammoInv piQ rng pos aim s (h entityId s hws))
  · intro entityId h
    unfold WeaponSys.startReload
    cases hws : ws entityId with
    | none => exact h
    | some s =>
      exact WeaponSys.ammoInv_overwrite ws entityId _ h
        (WeaponState.startReload_ammoInv s (h entityId s hws))
  · intro entityId w h hw
    exact WeaponSys.ammoInv_overwrite ws entityId _ h (WeaponState.init_ammoInv w hw)
  · intro s hs
    unfold WeaponState.startReload
    exact if_pos hs

/-- C9 witness: registering a Pistol into an empty map preserves the
invariant, and `startReload` on a full Pistol magazine fails without
changing the state. -/
theorem weaponSys_ops_ammoInv_witness :
    (WeaponSys.registerWeapon (fun _ => none) 1 WEAPON_PISTOL).ammoInv ∧
    WeaponState.startReload (WeaponState.init WEAPON_PISTOL) =
      (false, WeaponState.init WEAPON_PISTOL) := by
  constructor
  · exact (weaponSys_ops_ammoInv (fun _ => none)).1 1 WEAPON_PISTOL
      (fun j s h => by simp at h) (by decide)
  · exact (weaponSys_ops_ammoInv (fun _ => none)).2.2.2.2.2
      (WeaponState.init WEAPON_PISTOL) (Or.inr rfl)

set_option maxRecDepth 10000 in
/-- C1: `fire` on a registered state is a no-op returning no projectiles
while reloading, on cooldown, or out of ammo; otherwise it consumes
exactly one round, sets `fireCooldown = 1 / fireRate`, and enters
Reloading with `reloadTimer = reloadTime` exactly when the decrement
empties the magazine.  Firing a fresh Pistol 12 times at its own cooldown
spacing (`pistolShots`) leaves one round after 11 shots and, at the 12th,
empties the magazine and immediately enters Reloading with
`reloadTimer = 1.5`. -/
theorem fire_state_machine (piQ : ℚ) (rng : ℕ → ℚ) (pos : ℚ × ℚ)
    (aim : ℚ) (s : WeaponState) :
    (s.isReloading = true ∨ s.fireCooldown > 0 ∨ s.currentAmmo ≤ 0 →
      s.fire piQ rng pos aim = ([], s)) ∧
    (s.isReloading = false → s.fireCooldown ≤ 0 → 0 < s.currentAmmo →
      s.ammoInv →
      (s.fire piQ rng pos aim).2.currentAmmo = s.currentAmmo - 1 ∧
      (s.fire piQ rng pos aim).2.fireCooldown = 1 / s.weapon.fireRate ∧
      ((s.fire piQ rng pos aim).2.isReloading = true ↔ s.currentAmmo - 1 = 0) ∧
      (s.currentAmmo - 1 = 0 →
        (s.fire piQ rng pos aim).2.reloadTimer = s.weapon.reloadTime)) ∧
    (pistolShots 11).currentAmmo = 1 ∧ (pistolShots 11).isReloading = false ∧
    (pistolShots 12).currentAmmo = 0 ∧ (pistolShots 12).isReloading = true ∧
    (pistolShots 12).reloadTimer = 3/2 := by
  refine ⟨?_, ?_, by with_unfolding_all decide, by with_unfolding_all decide,
    by with_unfolding_all decide, by with_unfolding_all decide,
    by with_unfolding_all decide⟩
  · intro h
    unfold WeaponState.fire
    exact if_pos h
  · intro hr hc ha hinv
    have hgate : ¬ (s.isReloading = true ∨ s.fireCooldown > 0 ∨ s.currentAmmo ≤ 0) := by
      push_neg
      exact ⟨by simp [hr], hc, ha⟩
    unfold WeaponState.fire
    rw [if_neg hgate]
    dsimp only
    by_cases hz : s.currentAmmo - 1 = 0
    · have hfull : ¬ ((0 : ℤ) = s.weapon.magazineSize) := by
        have := hinv.2
        omega
      simp only [hz, if_true, reduceIte]
      unfold WeaponState.startReload
      rw [if_neg (by simp [hr, hz, hfull])]
      simp [hz]
    · simp only [hz, reduceIte]
      simp [hr, hz]

/-- C1 witness: `fire` on a reloading Pistol state is a no-op, and
`fire` on a fresh Pistol consumes exactly one round, sets the 1/3 s
cooldown, and does not start a reload. -/
theorem fire_state_machine_witness :
    (WeaponState.fire 0 (fun _ => 0) (0, 0) 0
      { weapon := WEAPON_PISTOL, currentAmmo := 5, isReloading := true,
        reloadTimer := 1, fireCooldown := 0 } =
      ([], { weapon := WEAPON_PISTOL, currentAmmo := 5, isReloading := true,
             reloadTimer := 1, fireCooldown := 0 })) ∧
    (WeaponState.fire 0 (fun _ => 0) (0, 0) 0
        (WeaponState.init WEAPON_PISTOL)).2.currentAmmo = 11 ∧
    (WeaponState.fire 0 (fun _ => 0) (0, 0) 0
        (WeaponState.init WEAPON_PISTOL)).2.fireCooldown = 1/3 ∧
    (WeaponState.fire 0 (fun _ => 0) (0, 0) 0
        (WeaponState.init WEAPON_PISTOL)).2.isReloading = false := by
  have h1 := (fire_state_machine 0 (fun _ => 0) (0, 0) 0
      { weapon := WEAPON_PISTOL, currentAmmo := 5, isReloading := true,
        reloadTimer := 1, fireCooldown := 0 }).1 (Or.inl rfl)
  have h2 := (fire_state_machine 0 (fun _ => 0) (0, 0) 0
      (WeaponState.init WEAPON_PISTOL)).2.1 rfl (by with_unfolding_all decide)
      (by with_unfolding_all decide)
      ⟨by with_unfolding_all decide, by with_unfolding_all decide⟩
  refine ⟨h1, ?_, ?_, ?_⟩
  · rw [h2.1]; with_unfolding_all decide
  · rw [h2.2.1]; with_unfolding_all decide
  · have h3 := h2.2.2.1
    rcases hb : (WeaponState.fire 0 (fun _ => 0) (0, 0) 0
        (WeaponState.init WEAPON_PISTOL)).2.isReloading with _ | _
    · rfl
    · rw [hb] at h3
      have h12 := h3.mp rfl
      exact absurd h12 (by with_unfolding_all decide)

/-- C5: a successful `fire` of a weapon with `projectileCount > 1`
produces exactly `projectileCount` spawn records; pellet `i`'s direction
angle is `aim + (i/(count-1) - 0.5) * spreadRadians`; the result does not
depend on the `Math.random()` stream; and the first and last pellets sit
exactly at `aim - spread/2` and `aim + spread/2` with consecutive pellets
exactly `spreadRadians/(count-1)` apart (even spacing, so the sorted
angles span the full arc). -/
theorem fire_multi_pellet (piQ : ℚ) (rng rng2 : ℕ → ℚ) (pos : ℚ × ℚ)
    (aim : ℚ) (s : WeaponState)
    (hn : 1 < s.weapon.projectileCount)
    (hr : s.isReloading = false) (hc : s.fireCooldown ≤ 0)
    (ha : 0 < s.currentAmmo) :
    (s.fire piQ rng pos aim).1.length = s.weapon.projectileCount ∧
    (∀ i, i < s.weapon.projectileCount →
      ((s.fire piQ rng pos aim).1.map ProjectileSpawnData.angle).get? i =
        some (aim + ((i : ℚ) / ((s.weapon.projectileCount : ℚ) - 1) - 1/2)
          * (s.weapon.spread * (piQ / 180)))) ∧
    s.fire piQ rng pos aim = s.fire piQ rng2 pos aim ∧
    ((s.fire piQ rng pos aim).1.map ProjectileSpawnData.angle).get? 0 =
      some (aim - s.weapon.spread * (piQ / 180) / 2) ∧
    ((s.fire piQ rng pos aim).1.map ProjectileSpawnData.angle).get?
        (s.weapon.projectileCount - 1) =
      some (aim + s.weapon.spread * (piQ / 180) / 2) ∧
    (∀ i, i + 1 < s.weapon.projectileCount →
      ∃ a b,
        ((s.fire piQ rng pos aim).1.map ProjectileSpawnData.angle).get? i =
          some a ∧
        ((s.fire piQ rng pos aim).1.map ProjectileSpawnData.angle).get?
          (i + 1) = some b ∧
        b - a = s.weapon.spread * (piQ / 180)
          / ((s.weapon.projectileCount : ℚ) - 1)) := by
  have hgate : ¬ (s.isReloading = true ∨ s.fireCooldown > 0 ∨ s.currentAmmo ≤ 0) := by
    push_neg
    exact ⟨by simp [hr], hc, ha⟩
  have hne : ((s.weapon.projectileCount : ℚ) - 1) ≠ 0 := by
    have h2 : (2 : ℚ) ≤ (s.weapon.projectileCount : ℚ) := by
      exact_mod_cast hn
    intro h
    nlinarith
  have hproj : ∀ r : ℕ → ℚ, (s.fire piQ r pos aim).1 =
      (List.range s.weapon.projectileCount).map fun i =>
        ({ position := pos, angle := aim + spreadAngle s.weapon piQ r i,
           damage := s.weapon.damage,
           speed := s.weapon.projectileSpeed : ProjectileSpawnData }) := by
    intro r
    unfold WeaponState.fire
    rw [if_neg hgate]
  have hsa : ∀ r : ℕ → ℚ, ∀ i : ℕ, spreadAngle s.weapon piQ r i =
      ((i : ℚ) / ((s.weapon.projectileCount : ℚ) - 1) - 1/2)
        * (s.weapon.spread * (piQ / 180)) := by
    intro r i
    unfold spreadAngle
    rw [if_pos hn]
  have hB : ∀ i, i < s.weapon.projectileCount →
      ((s.fire piQ rng pos aim).1.map ProjectileSpawnData.angle).get? i =
        some (aim + ((i : ℚ) / ((s.weapon.projectileCount : ℚ) - 1) - 1/2)
          * (s.weapon.spread * (piQ / 180))) := by
    intro i hi
    rw [hproj rng, List.map_map, List.get?_map, List.get?_range hi]
    simp [Function.comp, hsa rng i]
  refine ⟨?_, hB, ?_, ?_, ?_, ?_⟩
  · rw [hproj rng]
    simp
  · have hstate : ∀ r : ℕ → ℚ, (s.fire piQ r pos aim).2 =
        (s.fire piQ rng pos aim).2 := by
      intro r
      unfold WeaponState.fire
      rw [if_neg hgate, if_neg hgate]
    have h1 := hproj rng
    have h2 := hproj rng2
    have hl : (s.fire piQ rng pos aim).1 = (s.fire piQ rng2 pos aim).1 := by
      rw [h1, h2]
      refine List.map_congr_left fun i hi => ?_
      simp only [hsa rng i, hsa rng2 i]
    exact Prod.ext hl (hstate rng2).symm
  · rw [hB 0 (lt_trans Nat.zero_lt_one hn)]
    congr 1
    push_cast
    ring
  · rw [hB (s.weapon.projectileCount - 1) (by omega)]
    congr 1
    have hcast : ((s.weapon.projectileCount - 1 : ℕ) : ℚ) =
        (s.weapon.projectileCount : ℚ) - 1 := by
      have h1 : 1 ≤ s.weapon.projectileCount := le_of_lt hn
      push_cast [h1]
      ring
    rw [hcast, div_self hne]
    ring
  · intro i hi
    refine ⟨_, _, hB i (by omega), hB (i + 1) (by omega), ?_⟩
    push_cast
    field_simp
    ring

/-- C5 witness: the Shotgun (6 pellets, 15° spread), fired with aim
angle 0 and `piQ = 180` (so angles are expressed in degrees), yields 6
pellets with the first at -7.5° and the last at +7.5°, independent of
the random stream. -/
theorem fire_multi_pellet_witness :
    (WeaponState.fire 180 (fun _ => 0) (0, 0) 0
      (WeaponState.init WEAPON_SHOTGUN)).1.length = 6 ∧
    ((WeaponState.fire 180 (fun _ => 0) (0, 0) 0
      (WeaponState.init WEAPON_SHOTGUN)).1.map ProjectileSpawnData.angle).get? 0 =
      some (-(15/2)) ∧
    ((WeaponState.fire 180 (fun _ => 0) (0, 0) 0
      (WeaponState.init WEAPON_SHOTGUN)).1.map ProjectileSpawnData.angle).get? 5 =
      some (15/2) ∧
    WeaponState.fire 180 (fun _ => 0) (0, 0) 0 (WeaponState.init WEAPON_SHOTGUN) =
      WeaponState.fire 180 (fun _ => 1) (0, 0) 0 (WeaponState.init WEAPON_SHOTGUN) := by
  have h := fire_multi_pellet 180 (fun _ => 0) (fun _ => 1) (0, 0) 0
    (WeaponState.init WEAPON_SHOTGUN) (by with_unfolding_all decide) rfl
    (by with_unfolding_all decide) (by with_unfolding_all decide)
  refine ⟨h.1, ?_, ?_, h.2.2.1⟩
  · rw [h.2.2.2.1]
    norm_num [WeaponState.init, WEAPON_SHOTGUN]
  · have h5 := h.2.2.2.2.1
    norm_num [WeaponState.init, WEAPON_SHOTGUN] at h5 ⊢
    exact h5

/-! ## Enemy AI (src/entities/Enemy.ts) -/

/-- `AIState` from src/types/index.ts. -/
inductive AIState
  | idle
  | patrol
  | chase
  | attack
  deriving DecidableEq, Repr

/-- The AI fields of `Enemy` (src/entities/Enemy.ts) read by `updateAI`'s
state transitions.  The `Enemy` constructor sets `sightRadius = 400` and
`attackRange = 300`; `patrolCount` is `patrolPoints.length`. -/
structure EnemyAI where
  aiState : AIState
  sightRadius : ℚ
  attackRange : ℚ
  patrolCount : ℕ
  deriving DecidableEq, Repr

/-- The state-transition `switch` of `Enemy.updateAI(dt, player)`.  `d`
stands for `distanceToPlayer = this.position.distance(player.position)`;
the movement behaviours (`doPatrol`, `doChase`, `doAttack`) never change
`aiState` and are omitted. -/
def EnemyAI.updateAIState (e : EnemyAI) (d : ℚ) : AIState :=
  match e.aiState with
  | .idle =>
      if d ≤ e.sightRadius then .chase
      else if e.patrolCount > 1 then .patrol
      else .idle
  | .patrol => if d ≤ e.sightRadius then .chase else .patrol
  | .chase =>
      if d > e.sightRadius * (3/2) then .patrol
      else if d ≤ e.attackRange then .attack
      else .chase
  | .attack => if d > e.attackRange then .chase else .attack

/-! ## Physics system (src/systems/PhysicsSystem.ts, part_008) -/

/-- `Platform` from src/systems/PhysicsSystem.ts (`oneWay?` defaulting
to absent/false). -/
structure Platform where
  x : ℚ
  y : ℚ
  width : ℚ
  height : ℚ
  oneWay : Bool
  deriving DecidableEq, Repr

/-- The `new Rect(platform.x, platform.y, platform.width,
platform.height)` built in the platform loop. -/
def Platform.bounds (p : Platform) : Rect := ⟨p.x, p.y, p.width, p.height⟩

/-- The `Entity` fields `PhysicsSystem.update` touches: position,
velocity, size (as used by `Entity.getBounds`), and the string tag set
(modelled as a duplicate-free list with JS `Set` semantics). -/
structure PEntity where
  position : ℚ × ℚ
  velocity : ℚ × ℚ
  size : ℚ × ℚ
  tags : List String
  deriving DecidableEq, Repr

/-- `Entity.hasTag`. -/
def PEntity.hasTag (e : PEntity) (t : String) : Bool := decide (t ∈ e.tags)

/-- `Entity.addTag` (`Set.add`: no duplicates). -/
def PEntity.addTag (e : PEntity) (t : String) : PEntity :=
  if t ∈ e.tags then e else { e with tags := e.tags ++ [t] }

/-- `Entity.removeTag` (`Set.delete`). -/
def PEntity.removeTag (e : PEntity) (t : String) : PEntity :=
  { e with tags := e.tags.filter fun x => decide (x ≠ t) }

/-- `GRAVITY = 980` px/s². -/
def GRAVITY : ℚ := 980

/-- `GROUND_FRICTION = 0.85`. -/
def GROUND_FRICTION : ℚ := 17/20

/-- `AIR_FRICTION = 0.98`. -/
def AIR_FRICTION : ℚ := 49/50

/-- The vertical velocity after this tick's gravity step:
`entity.velocity.y += GRAVITY * dt`. -/
def gravityVelY (dt : ℚ) (e : PEntity) : ℚ := e.velocity.2 + GRAVITY * dt

/-- The horizontal velocity after this tick's friction step. -/
def frictionVelX (e : PEntity) : ℚ :=
  if e.hasTag "grounded" then e.velocity.1 * GROUND_FRICTION
  else e.velocity.1 * AIR_FRICTION

/-- The position after integrating the tick's velocity. -/
def integratedPos (dt : ℚ) (e : PEntity) : ℚ × ℚ :=
  (e.position.1 + frictionVelX e * dt, e.position.2 + gravityVelY dt e * dt)

/-- `entity.getBounds()` taken after the move (the `entityBounds` the
platform loop tests against; it is not recomputed between platforms). -/
def postMoveBounds (dt : ℚ) (e : PEntity) : Rect :=
  ⟨(integratedPos dt e).1, (integratedPos dt e).2, e.size.1, e.size.2⟩

/-- `PhysicsSystem.resolveCollision`: minimum-translation AABB pushout
for solid platforms.  It reads the (stale) pre-loop `entityBounds` for
the overlap distances and writes the current position/velocity. -/
def resolveCollision (entityBounds platformBounds : Rect)
    (pos vel : ℚ × ℚ) : (ℚ × ℚ) × (ℚ × ℚ) :=
  let overlapLeft := (entityBounds.x + entityBounds.width) - platformBounds.x
  let overlapRight := (platformBounds.x + platformBounds.width) - entityBounds.x
  let overlapTop := (entityBounds.y + entityBounds.height) - platformBounds.y
  let overlapBottom := (platformBounds.y + platformBounds.height) - entityBounds.y
  let minOverlapX := min overlapLeft overlapRight
  let minOverlapY := min overlapTop overlapBottom
  if minOverlapX < minOverlapY then
    if overlapLeft < overlapRight then
      ((platformBounds.x - entityBounds.width, pos.2), (0, vel.2))
    else
      ((platformBounds.x + platformBounds.width, pos.2), (0, vel.2))
  else
    if overlapTop < overlapBottom then
      ((pos.1, platformBounds.y - entityBounds.height), (vel.1, 0))
    else
      ((pos.1, platformBounds.y + platformBounds.height), (vel.1, 0))

/-- One iteration of the platform loop of `PhysicsSystem.update`; the
loop state is (position, velocity, grounded flag), while `entityBounds`
and the pre-move `oldY` stay fixed across the loop. -/
def platformStep (entityBounds : Rect) (oldY : ℚ)
    (st : (ℚ × ℚ) × (ℚ × ℚ) × Bool) (p : Platform) :
    (ℚ × ℚ) × (ℚ × ℚ) × Bool :=
  let pos := st.1
  let vel := st.2.1
  let grounded := st.2.2
  if Rect.intersects entityBounds p.bounds then
    if p.oneWay then
      if oldY + entityBounds.height ≤ p.y ∧ vel.2 ≥ 0 then
        ((pos.1, p.y - entityBounds.height), (vel.1, 0), true)
      else st
    else
      let r := resolveCollision entityBounds p.bounds pos vel
      (r.1, r.2,
        if r.1.2 + entityBounds.height ≤ p.y + 5 then true else grounded)
  else st

/-- Per-entity body of `PhysicsSystem.update`: gravity, friction, the
pre-move `oldY` snapshot, integration, the platform loop, and the final
grounded-tag update. -/
def physicsStepEntity (platforms : List Platform) (dt : ℚ)
    (e : PEntity) : PEntity :=
  if e.hasTag "physics" = false then e
  else
    let r := platforms.foldl (platformStep (postMoveBounds dt e) e.position.2)
      (integratedPos dt e, (frictionVelX e, gravityVelY dt e), false)
    let e2 := { e with position := r.1, velocity := r.2.1 }
    if r.2.2 then e2.addTag "grounded" else e2.removeTag "grounded"

/-- `PhysicsSystem.update(entities, dt)`: each physics-tagged entity is
processed independently. -/
def physicsUpdate (platforms : List Platform) (dt : ℚ)
    (es : List PEntity) : List PEntity :=
  es.map (physicsStepEntity platforms dt)

/-! ## Projectile and projectile pool (part_005, part_007) -/

/-- `Projectile` from src/entities/Projectile.ts: the `Entity` base
fields plus its own. -/
structure Projectile where
  id : ℕ
  position : Vec2
  velocity : Vec2
  size : Vec2
  active : Bool
  tags : List String
  owner : ℕ
  damage : ℚ
  speed : ℚ
  lifetime : ℚ
  maxLifetime : ℚ
  deriving DecidableEq, Repr

/-- The `Projectile` constructor: 4×4 size, `projectile` tag, velocity
`direction.normalize().multiply(speed)`, active (from `Entity`). -/
def Projectile.new (sqrtFn : ℚ → ℚ) (id : ℕ) (position direction : Vec2)
    (owner : ℕ) (damage speed lifetime : ℚ) : Projectile :=
  { id := id, position := position,
    velocity := (direction.normalize sqrtFn).multiply speed,
    size := ⟨4, 4⟩, active := true, tags := ["projectile"],
    owner := owner, damage := damage, speed := speed,
    lifetime := lifetime, maxLifetime := lifetime }

/-- `Projectile.reset` (object pooling): overwrite the pooled fields and
re-activate. -/
def Projectile.reset (sqrtFn : ℚ → ℚ) (position direction : Vec2)
    (owner : ℕ) (damage speed lifetime : ℚ) (p : Projectile) : Projectile :=
  { p with
    position := position, owner := owner, damage := damage,
    speed := speed, lifetime := lifetime, maxLifetime := lifetime,
    velocity := (direction.normalize sqrtFn).multiply speed,
    active := true }

/-- `Entity.deactivate`. -/
def Projectile.deactivate (p : Projectile) : Projectile :=
  { p with active := false }

/-- `ProjectilePool` state: the free array, the active set (modelled as
a list), and the monotonic id counter. -/
structure ProjectilePool where
  pool : List Projectile
  activeProjectiles : List Projectile
  nextId : ℕ
  deriving DecidableEq, Repr

/-- `ProjectilePool.acquire`: pop a pooled instance (the array's last
element) or, when the pool array is empty, allocate a fresh projectile
(dynamic growth — `new Projectile(this.nextId++, ...)`); then reset,
activate, and track it.  The `Option` mirrors the source's
`Projectile | null` return type, whose `null` case
(`if (!projectile) return null`) is unreachable. -/
def ProjectilePool.acquire (sqrtFn : ℚ → ℚ) (pl : ProjectilePool)
    (position direction : Vec2) (owner : ℕ)
    (damage speed lifetime : ℚ) : Option Projectile × ProjectilePool :=
  let picked : Option Projectile × List Projectile × ℕ :=
    if pl.pool.length > 0 then (pl.pool.getLast?, pl.pool.dropLast, pl.nextId)
    else (some (Projectile.new sqrtFn pl.nextId ⟨0, 0⟩ ⟨1, 0⟩ 0 0 0 0),
          pl.pool, pl.nextId + 1)
  match picked with
  | (none, _, _) => (none, pl)
  | (some pr, pool2, nid) =>
    let pr2 := Projectile.reset sqrtFn position direction owner damage
      speed lifetime pr
    (some pr2,
     { pool := pool2, activeProjectiles := pr2 :: pl.activeProjectiles,
       nextId := nid })

/-! ## Particle system (src/systems/ParticleSystem.ts, part_009) -/

/-- `Particle` from src/systems/ParticleSystem.ts. -/
structure Particle where
  position : ℚ × ℚ
  velocity : ℚ × ℚ
  lifetime : ℚ
  maxLifetime : ℚ
  color : String
  size : ℚ
  active : Bool
  deriving DecidableEq, Repr

/-- The `Particle` constructor: starts inactive. -/
def Particle.new : Particle :=
  { position := (0, 0), velocity := (0, 0), lifetime := 0,
    maxLifetime := 1, color := "#FFFFFF", size := 2, active := false }

/-- `Particle.reset`: overwrite and activate. -/
def Particle.reset (position velocity : ℚ × ℚ) (lifetime : ℚ)
    (color : String) (size : ℚ) (_q : Particle) : Particle :=
  { position := position, velocity := velocity, lifetime := lifetime,
    maxLifetime := lifetime, color := color, size := size, active := true }

/-- `ParticleSystem.spawnParticle`: scan the fixed pool for the first
inactive particle and reset it; if every particle is active, fall off
the loop and spawn nothing (`// Pool exhausted - particle not spawned`). -/
def spawnParticle (position velocity : ℚ × ℚ) (lifetime : ℚ)
    (color : String) (size : ℚ) : List Particle → List Particle
  | [] => []
  | q :: rest =>
    if q.active = false then
      Particle.reset position velocity lifetime color size q :: rest
    else q :: spawnParticle position velocity lifetime color size rest

/-- The `ParticleSystem` constructor's pool: `POOL_SIZE = 200` inactive
particles. -/
def particlePoolInit : List Particle := List.replicate 200 Particle.new

/-- A reachable particle pool in which all 200 pooled particles are
active. -/
def allActiveParticles : List Particle :=
  List.replicate 200 { Particle.new with active := true }

/-- If every pooled particle is active, `spawnParticle` returns the pool
unchanged. -/
theorem spawnParticle_of_allActive (position velocity : ℚ × ℚ)
    (lifetime : ℚ) (color : String) (size : ℚ) (ps : List Particle)
    (h : ∀ q ∈ ps, q.active = true) :
    spawnParticle position velocity lifetime color size ps = ps := by
  induction ps with
  | nil => rfl
  | cons q rest ih =>
    have hq : q.active = true := h q (List.mem_cons_self q rest)
    unfold spawnParticle
    rw [if_neg (by simp [hq])]
    rw [ih fun x hx => h x (List.mem_cons_of_mem q hx)]

/-! ## Collision dispatcher (`CollisionSystem`, in
src/systems/DebugRenderer.ts) and the canonical gameplay callbacks
(`Engine.setupCollisionCallbacks`, src/engine/Engine.ts) -/

/-- What one collision pass reads and the canonical callbacks write on
an entity: identity, active flag, tag set, bounding box (`getBounds()`;
the callbacks never move entities, so it is carried as a value), and
the fields the canonical projectile callbacks touch — `owner`/`damage`
(defined on `Projectile`; `none` models JS `undefined` on entities
without the field) and `health` behind a `takeDamage` method (defined on
`Player` and `Enemy`; `hasTakeDamage` models the source's
`typeof x.takeDamage === 'function'` test). -/
structure CEntity where
  id : ℕ
  active : Bool
  tags : List String
  bounds : Rect
  owner : Option ℕ
  damage : Option ℚ
  health : ℚ
  hasTakeDamage : Bool
  deriving DecidableEq, Repr

/-- `Player.takeDamage`/`Enemy.takeDamage`: subtract the amount, clamp
health at 0, and deactivate on death.  (The collision callback passes no
knockback direction, so `Player`'s optional knockback branch is not
taken.) -/
def CEntity.takeDamage (x : CEntity) (amount : ℚ) : CEntity :=
  let h := x.health - amount
  if h ≤ 0 then { x with health := 0, active := false }
  else { x with health := h }

/-- `CollisionSystem.getCollisionKey`: the two tags sorted
alphabetically, joined with `:`. -/
def getCollisionKey (tagA tagB : String) : String :=
  if tagA < tagB then tagA ++ ":" ++ tagB else tagB ++ ":" ++ tagA

/-- The canonical projectile-hit callback registered by
`Engine.setupCollisionCallbacks` for `projectile`×`player` and
`projectile`×`enemy` (both registrations share this body up to effects
not modelled here — hit sparks and sound).  `i`, `j` are the positions
of the two argument entities in the pass's entity array (JS object
references); the guard is `proj.owner !== target.id && typeof
target.takeDamage === 'function'` — there is no `proj.active` check.
`damage.getD 0` stands for the projectile's `damage` field; the `none`
(JS `undefined`) default is never read under canonical tags, because
the `takeDamage` guard already fails whenever the first argument is not
a projectile. -/
def cbProjectileHit (st : List CEntity) (i j : ℕ) : List CEntity :=
  match st.get? i, st.get? j with
  | some proj, some target =>
    if proj.owner ≠ some target.id ∧ target.hasTakeDamage = true then
      (st.set j (target.takeDamage (proj.damage.getD 0))).set i
        { proj with active := false }
    else st
  | _, _ => st

/-- The `collisionCallbacks` map after `Engine.setupCollisionCallbacks`:
keys `player:projectile` and `enemy:projectile` each hold the one
canonical callback. -/
def registeredCallbacks (key : String) :
    List (List CEntity → ℕ → ℕ → List CEntity) :=
  if key = getCollisionKey "projectile" "player" then [cbProjectileHit]
  else if key = getCollisionKey "projectile" "enemy" then [cbProjectileHit]
  else []

/-- `CollisionSystem.handleCollision`: iterate every tag combination of
the pair and invoke the callbacks registered under the sorted key; the
`keyAB !== keyBA` reversed dispatch can never fire because
`getCollisionKey` sorts its arguments. -/
def handleCollision (st0 : List CEntity) (i j : ℕ) : List CEntity :=
  match st0.get? i, st0.get? j with
  | some a, some b =>
    a.tags.foldl (fun st1 tagA =>
      b.tags.foldl (fun st2 tagB =>
        let keyAB := getCollisionKey tagA tagB
        let keyBA := getCollisionKey tagB tagA
        let st3 := (registeredCallbacks keyAB).foldl (fun s cb => cb s i j) st2
        if keyAB ≠ keyBA then
          (registeredCallbacks keyBA).foldl (fun s cb => cb s j i) st3
        else st3) st1) st0
  | _, _ => st0

/-- `CollisionSystem.detectCollisions`: O(n²) pairwise scan over the
entity array.  `entityA`'s active flag is read once, before the inner
loop, so a deactivation during pair (i, j₁) does not stop pair (i, j₂)
from being processed; bounds and `entityB.active` are re-read from the
current state at each pair (JS object references). -/
def detectCollisions (es : List CEntity) : List CEntity :=
  (List.range es.length).foldl (fun st i =>
    match st.get? i with
    | some a =>
      if a.active = true then
        (List.range es.length).foldl (fun st2 j =>
          if i < j then
            match st2.get? i, st2.get? j with
            | some a2, some b =>
              if b.active = true then
                if Rect.intersects a2.bounds b.bounds then
                  handleCollision st2 i j
                else st2
              else st2
            | _, _ => st2
          else st2) st
      else st
    | none => st) es

/-- An active projectile (damage 10, owner id 99) overlapping both
enemies below. -/
def cProjectile : CEntity :=
  { id := 1, active := true, tags := ["projectile"],
    bounds := ⟨0, 0, 50, 50⟩, owner := some 99, damage := some 10,
    health := 0, hasTakeDamage := false }

/-- A full-health enemy overlapping the projectile. -/
def cEnemyA : CEntity :=
  { id := 2, active := true, tags := ["enemy", "physics"],
    bounds := ⟨0, 0, 50, 50⟩, owner := none, damage := none,
    health := 100, hasTakeDamage := true }

/-- A second full-health enemy overlapping the same projectile. -/
def cEnemyB : CEntity :=
  { id := 3, active := true, tags := ["enemy", "physics"],
    bounds := ⟨10, 10, 50, 50⟩, owner := none, damage := none,
    health := 100, hasTakeDamage := true }

/-- One projectile overlapping two enemies in a single pass. -/
def ex4 : List CEntity := [cProjectile, cEnemyA, cEnemyB]

/-- Adding a tag makes `hasTag` true for it. -/
theorem PEntity.hasTag_addTag (e : PEntity) (t : String) :
    (e.addTag t).hasTag t = true := by
  unfold PEntity.addTag PEntity.hasTag
  split
  · simpa
  · simp

/-- Removing a tag makes `hasTag` false for it. -/
theorem PEntity.hasTag_removeTag (e : PEntity) (t : String) :
    (e.removeTag t).hasTag t = false := by
  unfold PEntity.removeTag PEntity.hasTag
  simp [List.mem_filter]

/-- Tag updates do not move the entity. -/
theorem PEntity.position_addTag (e : PEntity) (t : String) :
    (e.addTag t).position = e.position := by
  unfold PEntity.addTag
  split <;> rfl

/-- Tag updates do not change the velocity. -/
theorem PEntity.velocity_addTag (e : PEntity) (t : String) :
    (e.addTag t).velocity = e.velocity := by
  unfold PEntity.addTag
  split <;> rfl

/-- Tag removal does not move the entity. -/
theorem PEntity.position_removeTag (e : PEntity) (t : String) :
    (e.removeTag t).position = e.position := rfl

/-- Tag removal does not change the velocity. -/
theorem PEntity.velocity_removeTag (e : PEntity) (t : String) :
    (e.removeTag t).velocity = e.velocity := rfl

end ArmourMayhem

namespace ArmourMayhem

/-- C2: within one `PhysicsSystem.update` tick over a single one-way
platform whose rectangle overlaps the entity's post-move bounds:
(i) if the pre-move bottom edge was at or above the platform's top and
the post-gravity vertical velocity is non-negative, the tick ends with
the entity's bottom snapped to the platform top, zero vertical velocity
and the `grounded` tag present; (ii) if the pre-move bottom edge was
strictly below the platform top (approach from below or the side), no
resolution happens regardless of velocity sign; (iii) likewise no
resolution happens when the vertical velocity is negative. -/
theorem oneWay_platform_resolution (dt : ℚ) (e : PEntity) (p : Platform)
    (hphys : e.hasTag "physics" = true)
    (hone : p.oneWay = true)
    (hoverlap : Rect.intersects (postMoveBounds dt e) p.bounds = true) :
    (e.position.2 + e.size.2 ≤ p.y → 0 ≤ gravityVelY dt e →
      (physicsStepEntity [p] dt e).position.2 + e.size.2 = p.y ∧
      (physicsStepEntity [p] dt e).velocity.2 = 0 ∧
      (physicsStepEntity [p] dt e).hasTag "grounded" = true) ∧
    (p.y < e.position.2 + e.size.2 →
      (physicsStepEntity [p] dt e).position = integratedPos dt e ∧
      (physicsStepEntity [p] dt e).velocity =
        (frictionVelX e, gravityVelY dt e) ∧
      (physicsStepEntity [p] dt e).hasTag "grounded" = false) ∧
    (gravityVelY dt e < 0 →
      (physicsStepEntity [p] dt e).position = integratedPos dt e ∧
      (physicsStepEntity [p] dt e).velocity =
        (frictionVelX e, gravityVelY dt e) ∧
      (physicsStepEntity [p] dt e).hasTag "grounded" = false) := by
  have hh : (postMoveBounds dt e).height = e.size.2 := rfl
  have hstep : ∀ res : (ℚ × ℚ) × (ℚ × ℚ) × Bool,
      platformStep (postMoveBounds dt e) e.position.2
        (integratedPos dt e, (frictionVelX e, gravityVelY dt e), false) p = res →
      physicsStepEntity [p] dt e =
        (if res.2.2 then
          ({ e with position := res.1, velocity := res.2.1 }).addTag "grounded"
        else
          ({ e with position := res.1, velocity := res.2.1 }).removeTag
            "grounded") := by
    intro res hres
    unfold physicsStepEntity
    rw [if_neg (by simp [hphys])]
    show (if (List.foldl (platformStep (postMoveBounds dt e) e.position.2)
        (integratedPos dt e, (frictionVelX e, gravityVelY dt e), false)
        [p]).2.2 then _ else _) = _
    rw [List.foldl_cons, List.foldl_nil, hres]
  refine ⟨?_, ?_, ?_⟩
  · intro h1 h2
    have hcond : e.position.2 + (postMoveBounds dt e).height ≤ p.y ∧
        (frictionVelX e, gravityVelY dt e).2 ≥ 0 := ⟨by rw [hh]; exact h1, h2⟩
    have hres := hstep (((integratedPos dt e).1,
        p.y - (postMoveBounds dt e).height), (frictionVelX e, 0), true) ?hr
    case hr =>
      unfold platformStep
      simp only [hoverlap, hone, reduceIte]
      rw [if_pos hcond]
    rw [hres]
    simp only [reduceIte]
    refine ⟨?_, ?_, PEntity.hasTag_addTag _ _⟩
    · rw [PEntity.position_addTag]
      show p.y - (postMoveBounds dt e).height + e.size.2 = p.y
      rw [hh]
      ring
    · rw [PEntity.velocity_addTag]
  · intro h1
    have hcond : ¬ (e.position.2 + (postMoveBounds dt e).height ≤ p.y ∧
        (frictionVelX e, gravityVelY dt e).2 ≥ 0) := by
      rintro ⟨hc1, -⟩
      rw [hh] at hc1
      exact absurd h1 (not_lt.mpr hc1)
    have hres := hstep (integratedPos dt e,
        (frictionVelX e, gravityVelY dt e), false) ?hr2
    case hr2 =>
      unfold platformStep
      simp only [hoverlap, hone, reduceIte]
      rw [if_neg hcond]
    rw [hres]
    simp only [Bool.false_eq_true, reduceIte]
    exact ⟨PEntity.position_removeTag _ _, PEntity.velocity_removeTag _ _,
      PEntity.hasTag_removeTag _ _⟩
  · intro h1
    have hcond : ¬ (e.position.2 + (postMoveBounds dt e).height ≤ p.y ∧
        (frictionVelX e, gravityVelY dt e).2 ≥ 0) := by
      rintro ⟨-, hc2⟩
      exact absurd h1 (not_lt.mpr hc2)
    have hres := hstep (integratedPos dt e,
        (frictionVelX e, gravityVelY dt e), false) ?hr3
    case hr3 =>
      unfold platformStep
      simp only [hoverlap, hone, reduceIte]
      rw [if_neg hcond]
    rw [hres]
    simp only [Bool.false_eq_true, reduceIte]
    exact ⟨PEntity.position_removeTag _ _, PEntity.velocity_removeTag _ _,
      PEntity.hasTag_removeTag _ _⟩

/-- C2 witness: a physics entity (bounds 10×10 at y = 89, falling at
60 px/s) lands on a one-way platform with top edge y = 100 in one
1/60 s tick: its bottom ends exactly on the platform top with zero
vertical velocity and the `grounded` tag. -/
theorem oneWay_platform_resolution_witness :
    (physicsStepEntity [⟨0, 100, 100, 10, true⟩] (1/60)
      ⟨(0, 89), (0, 60), (10, 10), ["physics"]⟩).position.2 + 10 = 100 ∧
    (physicsStepEntity [⟨0, 100, 100, 10, true⟩] (1/60)
      ⟨(0, 89), (0, 60), (10, 10), ["physics"]⟩).velocity.2 = 0 ∧
    (physicsStepEntity [⟨0, 100, 100, 10, true⟩] (1/60)
      ⟨(0, 89), (0, 60), (10, 10), ["physics"]⟩).hasTag "grounded" = true := by
  exact (oneWay_platform_resolution (1/60)
      ⟨(0, 89), (0, 60), (10, 10), ["physics"]⟩ ⟨0, 100, 100, 10, true⟩
      (by with_unfolding_all decide) rfl
      (by with_unfolding_all decide)).1
      (by with_unfolding_all decide) (by with_unfolding_all decide)

end ArmourMayhem

namespace ArmourMayhem

/-- C3 (amended): `ProjectilePool.acquire` never fails — it returns a
(reset, active) projectile for every pool state, allocating a fresh
instance and advancing the id counter when the free array is empty; the
particle system's `spawnParticle`, by contrast, silently spawns nothing
when every pooled particle is already active (the particle pool does not
grow). -/
theorem pool_exhaustion_behavior (sqrtFn : ℚ → ℚ) (pl : ProjectilePool)
    (position direction : Vec2) (owner : ℕ) (damage speed lifetime : ℚ) :
    ((pl.acquire sqrtFn position direction owner damage speed
        lifetime).1.isSome = true) ∧
    (pl.pool = [] →
      (pl.acquire sqrtFn position direction owner damage speed lifetime).1 =
        some (Projectile.reset sqrtFn position direction owner damage speed
          lifetime (Projectile.new sqrtFn pl.nextId ⟨0, 0⟩ ⟨1, 0⟩ 0 0 0 0)) ∧
      (pl.acquire sqrtFn position direction owner damage speed
        lifetime).2.nextId = pl.nextId + 1) ∧
    (∀ q, (pl.acquire sqrtFn position direction owner damage speed
        lifetime).1 = some q → q.active = true) ∧
    (∀ (position2 velocity2 : ℚ × ℚ) (lifetime2 : ℚ) (color2 : String)
      (size2 : ℚ) (ps : List Particle), (∀ q ∈ ps, q.active = true) →
      spawnParticle position2 velocity2 lifetime2 color2 size2 ps = ps) := by
  have hspawn : ∀ (position2 velocity2 : ℚ × ℚ) (lifetime2 : ℚ)
      (color2 : String) (size2 : ℚ) (ps : List Particle),
      (∀ q ∈ ps, q.active = true) →
      spawnParticle position2 velocity2 lifetime2 color2 size2 ps = ps :=
    fun a b c d f ps h => spawnParticle_of_allActive a b c d f ps h
  by_cases hp : pl.pool = []
  · have hlen : ¬ (pl.pool.length > 0) := by simp [hp]
    have hacq : (pl.acquire sqrtFn position direction owner damage speed
        lifetime) =
        (some (Projectile.reset sqrtFn position direction owner damage speed
          lifetime (Projectile.new sqrtFn pl.nextId ⟨0, 0⟩ ⟨1, 0⟩ 0 0 0 0)),
         { pool := pl.pool,
           activeProjectiles :=
             Projectile.reset sqrtFn position direction owner damage speed
               lifetime (Projectile.new sqrtFn pl.nextId ⟨0, 0⟩ ⟨1, 0⟩ 0 0 0 0)
               :: pl.activeProjectiles,
           nextId := pl.nextId + 1 }) := by
      unfold ProjectilePool.acquire
      rw [if_neg hlen]
    rw [hacq]
    refine ⟨rfl, fun _ => ⟨rfl, rfl⟩, ?_, hspawn⟩
    intro q hq
    rw [Option.some.injEq] at hq
    rw [← hq]
    rfl
  · obtain ⟨x, hx⟩ : ∃ x, pl.pool.getLast? = some x := by
      rw [← Option.isSome_iff_exists, List.getLast?_isSome]
      exact hp
    have hlen : pl.pool.length > 0 := List.length_pos.mpr hp
    have hacq : (pl.acquire sqrtFn position direction owner damage speed
        lifetime) =
        (some (Projectile.reset sqrtFn position direction owner damage speed
          lifetime x),
         { pool := pl.pool.dropLast,
           activeProjectiles :=
             Projectile.reset sqrtFn position direction owner damage speed
               lifetime x :: pl.activeProjectiles,
           nextId := pl.nextId }) := by
      unfold ProjectilePool.acquire
      rw [if_pos hlen, hx]
    rw [hacq]
    refine ⟨rfl, fun hcon => absurd hcon hp, ?_, hspawn⟩
    intro q hq
    rw [Option.some.injEq] at hq
    rw [← hq]
    rfl

/-- C3 witness: acquiring from a pool whose free array is empty still
returns an (active) projectile, with a freshly allocated id; and a spawn
on an all-active particle pool leaves it unchanged. -/
theorem pool_exhaustion_behavior_witness :
    ((ProjectilePool.acquire (fun _ => 0) ⟨[], [], 10000⟩ ⟨1, 2⟩ ⟨1, 0⟩ 7
        25 800 3).1.isSome = true) ∧
    ((ProjectilePool.acquire (fun _ => 0) ⟨[], [], 10000⟩ ⟨1, 2⟩ ⟨1, 0⟩ 7
        25 800 3).2.nextId = 10001) ∧
    spawnParticle (0, 0) (0, 0) (1/5) "#FFA500" 3 allActiveParticles =
      allActiveParticles := by
  have h := pool_exhaustion_behavior (fun _ => 0) ⟨[], [], 10000⟩
    ⟨1, 2⟩ ⟨1, 0⟩ 7 25 800 3
  refine ⟨h.1, (h.2.1 rfl).2, ?_⟩
  refine h.2.2.2 _ _ _ _ _ _ fun q hq => ?_
  rw [List.eq_of_mem_replicate hq]

/-- C4 counterexample: in one `detectCollisions` pass over `ex4` (one
projectile with damage 10 overlapping two enemies at full health 100),
the projectile is deactivated at its first hit, yet the pass damages
BOTH enemies (healths end at 90 and 90): `entityA.active` is read only
once before the inner loop and the canonical callback has no
`proj.active` guard, so the invocation involving the already-deactivated
projectile is not a no-op — the projectile's damage is applied twice in
a single pass. -/
theorem projectile_double_damage :
    (detectCollisions ex4).map CEntity.health = [0, 90, 90] ∧
    (detectCollisions ex4).map CEntity.active = [false, true, true] ∧
    cProjectile.damage = some 10 ∧ cEnemyA.health = 100 ∧
    cEnemyB.health = 100 := by
  with_unfolding_all decide

/-- C4 (amended): within a single colliding pair, the canonical
projectile callback fires exactly once (the sorted key makes
`keyAB = keyBA`, and only the `enemy`×`projectile` combination is
registered), damaging the target once and deactivating the projectile;
the dispatcher and callbacks do not re-check the projectile's active
flag afterwards, so per pass a projectile applies its damage at most
once per colliding pair, not at most once overall. -/
theorem projectile_single_pair_damage (st : List CEntity) (i j : ℕ)
    (a b : CEntity)
    (ha : st.get? i = some a) (hb : st.get? j = some b)
    (hat : a.tags = ["projectile"]) (hbt : b.tags = ["enemy", "physics"])
    (howner : a.owner ≠ some b.id) (htd : b.hasTakeDamage = true) :
    handleCollision st i j =
      (st.set j (b.takeDamage (a.damage.getD 0))).set i
        { a with active := false } := by
  have hguard : a.owner ≠ some b.id ∧ b.hasTakeDamage = true := ⟨howner, htd⟩
  have hcb : cbProjectileHit st i j =
      (st.set j (b.takeDamage (a.damage.getD 0))).set i
        { a with active := false } := by
    unfold cbProjectileHit
    rw [ha, hb]
    dsimp only
    rw [if_pos hguard]
  have k1 : getCollisionKey "projectile" "enemy" = "enemy:projectile" := by
    with_unfolding_all rfl
  have k2 : getCollisionKey "enemy" "projectile" = "enemy:projectile" := by
    with_unfolding_all rfl
  have k3 : getCollisionKey "projectile" "physics" = "physics:projectile" := by
    with_unfolding_all rfl
  have k4 : getCollisionKey "physics" "projectile" = "physics:projectile" := by
    with_unfolding_all rfl
  have r1 : registeredCallbacks "enemy:projectile" = [cbProjectileHit] := by
    unfold registeredCallbacks
    rw [if_neg (by with_unfolding_all decide), if_pos (by with_unfolding_all rfl)]
  have r2 : registeredCallbacks "physics:projectile" = [] := by
    unfold registeredCallbacks
    rw [if_neg (by with_unfolding_all decide), if_neg (by with_unfolding_all decide)]
  unfold handleCollision
  rw [ha, hb]
  dsimp only
  rw [hat, hbt]
  simp only [List.foldl_cons, List.foldl_nil, k1, k2, k3, k4, r1, r2,
    ne_eq, not_true_eq_false, if_false, Bool.false_eq_true, reduceIte]
  rw [hcb, hat]

/-- C4 witness for the amended theorem: the first colliding pair of
`ex4` (projectile, first enemy) damages that enemy exactly once and
deactivates the projectile. -/
theorem projectile_single_pair_damage_witness :
    handleCollision ex4 0 1 =
      (ex4.set 1 (cEnemyA.takeDamage (cProjectile.damage.getD 0))).set 0
        { cProjectile with active := false } := by
  exact projectile_single_pair_damage ex4 0 1 cProjectile cEnemyA rfl rfl
    rfl rfl (by with_unfolding_all decide) rfl

/-- C3 counterexample: the particle pool does not grow on exhaustion —
with all 200 pooled particles active, a spawn request changes nothing
(no particle is created or activated), contradicting the claim that the
particle spawn "creates or activates a particle even when all
pre-allocated pooled particles are already active". -/
theorem particle_spawn_dropped :
    spawnParticle (0, 0) (0, 0) (1/5) "#FFA500" 3 allActiveParticles =
      allActiveParticles ∧
    allActiveParticles.length = 200 ∧
    allActiveParticles.all Particle.active = true := by
  refine ⟨spawnParticle_of_allActive _ _ _ _ _ _ fun q hq => ?_, ?_, ?_⟩
  · rw [List.eq_of_mem_replicate hq]
  · exact List.length_replicate 200 _
  · rw [List.all_eq_true]
    intro q hq
    rw [List.eq_of_mem_replicate hq]

end ArmourMayhem

namespace ArmourMayhem

/-- C8: from the Chase state (with `attackRange <= sightRadius * 1.5`,
as the `Enemy` constructor's `300 <= 400 * 1.5` guarantees), one
`updateAI` step goes to Patrol iff the distance exceeds
`sightRadius * 1.5`, goes to Attack iff the distance is within
`attackRange`, and stays in Chase on the whole hysteresis band
`attackRange < d <= sightRadius * 1.5`. -/
theorem chase_hysteresis (e : EnemyAI) (d : ℚ)
    (hs : e.aiState = .chase)
    (hb : e.attackRange ≤ e.sightRadius * (3/2)) :
    (e.updateAIState d = .patrol ↔ d > e.sightRadius * (3/2)) ∧
    (e.updateAIState d = .attack ↔ d ≤ e.attackRange) ∧
    (e.attackRange < d → d ≤ e.sightRadius * (3/2) →
      e.updateAIState d = .chase) := by
  unfold EnemyAI.updateAIState
  rw [hs]
  by_cases h1 : d > e.sightRadius * (3/2)
  · rw [if_pos h1]
    refine ⟨⟨fun _ => h1, fun _ => rfl⟩, ⟨fun h => by simp at h, ?_⟩, ?_⟩
    · intro h2
      exact absurd (lt_of_le_of_lt (le_trans h2 hb) h1) (lt_irrefl d)
    · intro _ h3
      exact absurd (lt_of_le_of_lt h3 h1) (lt_irrefl d)
  · rw [if_neg h1]
    by_cases h2 : d ≤ e.attackRange
    · rw [if_pos h2]
      refine ⟨⟨fun h => by simp at h, fun h => absurd h h1⟩,
        ⟨fun _ => h2, fun _ => rfl⟩, ?_⟩
      intro h3 _
      exact absurd h3 (not_lt.mpr h2)
    · rw [if_neg h2]
      exact ⟨⟨fun h => by simp at h, fun h => absurd h h1⟩,
        ⟨fun h => by simp at h, fun h => absurd h h2⟩,
        fun _ _ => rfl⟩

/-- C8 witness: with the constructor defaults (sight 400, attack 300), a
chasing enemy at distance `480 = sightRadius * 1.2` stays in Chase, and
at distance `640 = sightRadius * 1.6` switches to Patrol. -/
theorem chase_hysteresis_witness :
    EnemyAI.updateAIState ⟨.chase, 400, 300, 2⟩ 480 = .chase ∧
    EnemyAI.updateAIState ⟨.chase, 400, 300, 2⟩ 640 = .patrol := by
  constructor
  · exact (chase_hysteresis ⟨.chase, 400, 300, 2⟩ 480 rfl (by norm_num)).2.2
      (by norm_num) (by norm_num)
  · exact (chase_hysteresis ⟨.chase, 400, 300, 2⟩ 640 rfl (by norm_num)).1.mpr
      (by norm_num)

end ArmourMayhem

namespace ArmourMayhem

/-! ## Engine.update's pause prologue and the input provider
(src/engine/Engine.ts lines 150-191, src/engine/InputManager.ts) -/

/-- The methods the `InputManager` class defines
(src/engine/InputManager.ts).  Neither `isKeyPressed` nor
`updateKeyStates` is among them. -/
def inputManagerMethods : List String :=
  ["initialize", "cleanup", "handleKeyDown", "handleKeyUp",
   "handleMouseMove", "handleMouseDown", "handleMouseUp", "isKeyDown",
   "getMousePosition", "isMouseButtonDown", "reset"]

/-- A JS member call on the engine's `inputManager`: invoking a name the
class does not define evaluates `undefined(...)` and throws a
`TypeError`. -/
def callInputMethod (name : String) : Except String Unit :=
  if name ∈ inputManagerMethods then Except.ok ()
  else Except.error ("TypeError: this.inputManager." ++ name ++
    " is not a function")

/-- The pause-handling prologue of `Engine.update(dt)` (its first
statements): query the edge-detected pause toggle via
`this.inputManager.isKeyPressed('escape')`, toggle `isPaused` when
pressed, and when paused call `this.inputManager.updateKeyStates()` and
return without running any entity or system step.  `escPressed` stands
for the value the toggle query would produce were the method defined;
the returned pair is (new `isPaused`, whether the rest of the tick —
entity updates, physics, weapons, particles, pool, collisions, sweep —
runs). -/
def engineUpdatePauseStep (isPaused escPressed : Bool) :
    Except String (Bool × Bool) := do
  _ ← callInputMethod "isKeyPressed"
  let isPaused2 := if escPressed then !isPaused else isPaused
  if isPaused2 then do
    _ ← callInputMethod "updateKeyStates"
    pure (isPaused2, false)
  else
    pure (isPaused2, true)

end ArmourMayhem

namespace ArmourMayhem

/-- C6: the input provider does NOT expose the operations the pause
step calls — `InputManager` defines neither the edge-detected
`isKeyPressed` nor `updateKeyStates` (it exposes only the level-detected
`isKeyDown` among its key queries) — so the pause-handling prologue of
`Engine.update`, whose first statement is
`this.inputManager.isKeyPressed('escape')`, fails with a `TypeError` on
every tick instead of never failing. -/
theorem pause_step_method_missing (isPaused escPressed : Bool) :
    ("isKeyPressed" ∉ inputManagerMethods) ∧
    ("updateKeyStates" ∉ inputManagerMethods) ∧
    ("isKeyDown" ∈ inputManagerMethods) ∧
    engineUpdatePauseStep isPaused escPressed = Except.error
      "TypeError: this.inputManager.isKeyPressed is not a function" := by
  refine ⟨by with_unfolding_all decide, by with_unfolding_all decide,
    by with_unfolding_all decide, ?_⟩
  unfold engineUpdatePauseStep callInputMethod
  rw [if_neg (by with_unfolding_all decide)]
  with_unfolding_all rfl

/-- C10: `Vec2.normalize` guards the zero vector — its length is 0 and
it returns `(0, 0)` instead of dividing — so for every speed,
constructing or resetting a `Projectile` with a zero direction vector
yields velocity exactly `(0, 0)`; since the division never happens, no
NaN or infinite component can reach the interface.  `sqrtFn 0 = 0` is
the `Math.sqrt(0) === 0` fact of IEEE sqrt that the guard relies on. -/
theorem zero_direction_velocity (sqrtFn : ℚ → ℚ) (hs : sqrtFn 0 = 0)
    (id : ℕ) (position : Vec2) (owner : ℕ) (damage speed lifetime : ℚ)
    (p : Projectile) :
    Vec2.normalize sqrtFn ⟨0, 0⟩ = ⟨0, 0⟩ ∧
    (Projectile.new sqrtFn id position ⟨0, 0⟩ owner damage speed
      lifetime).velocity = ⟨0, 0⟩ ∧
    (Projectile.reset sqrtFn position ⟨0, 0⟩ owner damage speed lifetime
      p).velocity = ⟨0, 0⟩ := by
  have hlen : Vec2.len sqrtFn ⟨0, 0⟩ = 0 := by
    unfold Vec2.len
    norm_num [hs]
  have hn : Vec2.normalize sqrtFn ⟨0, 0⟩ = ⟨0, 0⟩ := by
    unfold Vec2.normalize
    rw [if_pos hlen]
  have hm : Vec2.multiply ⟨0, 0⟩ speed = ⟨0, 0⟩ := by
    unfold Vec2.multiply
    norm_num
  refine ⟨hn, ?_, ?_⟩
  · show Vec2.multiply (Vec2.normalize sqrtFn ⟨0, 0⟩) speed = ⟨0, 0⟩
    rw [hn, hm]
  · show Vec2.multiply (Vec2.normalize sqrtFn ⟨0, 0⟩) speed = ⟨0, 0⟩
    rw [hn, hm]

/-- C10 witness: with the square root evaluated at 0 only (where it is
0), resetting a pooled projectile with direction `(0, 0)` and speed 800
gives velocity exactly `(0, 0)`. -/
theorem zero_direction_velocity_witness :
    Vec2.normalize (fun _ => 0) ⟨0, 0⟩ = ⟨0, 0⟩ ∧
    (Projectile.reset (fun _ => 0) ⟨5, 6⟩ ⟨0, 0⟩ 7 25 800 3
      (Projectile.new (fun _ => 0) 10000 ⟨0, 0⟩ ⟨1, 0⟩ 0 0 0 0)).velocity =
      ⟨0, 0⟩ := by
  have h := zero_direction_velocity (fun _ => 0) rfl 10000 ⟨5, 6⟩ 7 25 800 3
    (Projectile.new (fun _ => 0) 10000 ⟨0, 0⟩ ⟨1, 0⟩ 0 0 0 0)
  exact ⟨h.1, h.2.2⟩

end ArmourMayhem
